import Mathlib

/-
Shallow embedding of the ios-remote backend (src/backend) for checking the
specification claims.  Strings returned by external commands, the device
registry, and the outcomes of the individual shell invocations are passed in
explicitly as environments; machine state (the WDAClient object, the
FFmpegStream / WebRTCStream objects, the armed JS interval timers) is passed
explicitly as state records.  The external device listing is modelled at
device granularity: one parsed Device per output line, a line containing a
given UDID is modelled as the device record whose id equals that UDID, and a
line containing the word Booted is modelled as the record whose status field
is Booted.
-/

/-- JS falsiness of a nullable string: null and the empty string are falsy
(wda-client.js uses this in the connection guards, server.js for deviceId). -/
def jsFalsyStr : Option String → Bool
  | none => true
  | some s => s == ""

/-- JS falsiness of a number: 0 is falsy (server.js coordinate checks). -/
def jsFalsyNum (q : ℚ) : Bool := q == 0

/-- Decidable equality for Except values, so that concrete runs of the
embedded operations can be checked by decide. -/
instance exceptDecEq {ε α : Type} [DecidableEq ε] [DecidableEq α] :
    DecidableEq (Except ε α)
  | .error e₁, .error e₂ =>
    if h : e₁ = e₂ then .isTrue (by rw [h]) else .isFalse (fun hc => h (Except.error.inj hc))
  | .error _, .ok _ => .isFalse (fun hc => Except.noConfusion hc)
  | .ok _, .error _ => .isFalse (fun hc => Except.noConfusion hc)
  | .ok a₁, .ok a₂ =>
    if h : a₁ = a₂ then .isTrue (by rw [h]) else .isFalse (fun hc => h (Except.ok.inj hc))

/-- One parsed device line of the simctl listing, as built by
WDAClient.listDevices (wda-client.js lines 60-77). -/
structure Device where
  id : String
  name : String
  type : String
  status : String
  os : String
deriving Repr, DecidableEq

/-- Mutable state of the WDAClient object (wda-client.js constructor). -/
structure WDAState where
  isConnected : Bool
  currentDevice : Option String
  devices : List Device
deriving Repr, DecidableEq

/-- Result and side effects of one connectToDevice call: result (the resolved
device id or the thrown error message), the list of device ids passed to a
boot command during the call, and the state of the client afterwards. -/
structure ConnectEffect where
  result : Except String String
  boots : List String
  state : WDAState
deriving Repr, DecidableEq

/-- WDAClient.connectToDevice (wda-client.js lines 94-145).  The two
list-targets invocations inside the call are the parameters: listing is the
device list seen by the listDevices call in the auto-select branch, relisting
the one seen by the verification step.  Selection: with a falsy deviceId the
first Booted simulator is taken; failing that the first simulator is booted;
failing that the call throws.  Verification: the line containing the chosen
id must contain Booted, else the call throws; the catch clause resets the
connection fields before rethrowing. -/
def connectToDevice (st : WDAState) (listing relisting : List Device)
    (deviceId? : Option String) : ConnectEffect :=
  let pick : Except String (String × List String × List Device) :=
    if jsFalsyStr deviceId? then
      match listing.find? (fun d => d.type == "Simulator" && d.status == "Booted") with
      | some sim => .ok (sim.id, [], listing)
      | none =>
        match listing.find? (fun d => d.type == "Simulator") with
        | some firstSim => .ok (firstSim.id, [firstSim.id], listing)
        | none => .error "No iOS simulator found. Please start a simulator first."
    else .ok (deviceId?.getD "", [], st.devices)
  match pick with
  | .error e =>
    ⟨.error e, [], { st with isConnected := false, currentDevice := none, devices := listing }⟩
  | .ok (id, boots, devs) =>
    match relisting.find? (fun d => d.id == id) with
    | some d =>
      if d.status == "Booted" then
        ⟨.ok id, boots,
          { st with isConnected := true, currentDevice := some id, devices := devs }⟩
      else
        ⟨.error ("Device " ++ id ++ " is not booted"), boots,
          { st with isConnected := false, currentDevice := none, devices := devs }⟩
    | none =>
      ⟨.error ("Device " ++ id ++ " is not booted"), boots,
        { st with isConnected := false, currentDevice := none, devices := devs }⟩

/-- Outcome of one tap or swipe strategy attempt: the strategy either
succeeded, or failed with an error message. -/
inductive StepResult where
  | ok
  | fail (msg : String)
deriving Repr, DecidableEq

/-- Boolean success test for a strategy outcome. -/
def StepResult.isOk : StepResult → Bool
  | .ok => true
  | .fail _ => false

/-- Outcomes of the external commands that the tap strategy chain invokes
(wda-client.js lines 161-328): the devicectl listing, the devicectl
send-input touch, the simctl ui tap, and the two osascript invocations. -/
structure TapEnv where
  devicectlList : Except String String
  sendInputTouch : Except String Unit
  simctlUiTap : Except String Unit
  osaScriptScaled : Except String Unit
  osaScriptDebug : Except String Unit
deriving Repr, DecidableEq

/-- Tap strategy 1 (wda-client.js lines 167-186): list devices with
devicectl; if the output contains the current device id, send a touch event,
otherwise throw that WDA is unavailable.  Any thrown error becomes the
recorded failure. -/
def tryWDATap (env : TapEnv) (device : String) : StepResult :=
  match env.devicectlList with
  | .error e => .fail e
  | .ok out =>
    if device.toList <:+: out.toList then
      match env.sendInputTouch with
      | .ok _ => .ok
      | .error e => .fail e
    else .fail "WDA not available for this device"

/-- Tap strategy 2 (wda-client.js lines 188-202): simctl ui tap. -/
def tryUiTap (env : TapEnv) : StepResult :=
  match env.simctlUiTap with
  | .ok _ => .ok
  | .error e => .fail e

/-- Tap strategy 3 (wda-client.js lines 204-269): osascript with window
coordinate scaling. -/
def tryOsaScaled (env : TapEnv) : StepResult :=
  match env.osaScriptScaled with
  | .ok _ => .ok
  | .error e => .fail e

/-- Tap strategy 4 (wda-client.js lines 271-328): enhanced debug osascript. -/
def tryOsaDebug (env : TapEnv) : StepResult :=
  match env.osaScriptDebug with
  | .ok _ => .ok
  | .error e => .fail e

/-- Ordered outcomes of the four configured tap strategies in a given
environment. -/
def tapStrategyResults (env : TapEnv) (device : String) : List StepResult :=
  [tryWDATap env device, tryUiTap env, tryOsaScaled env, tryOsaDebug env]

/-- Accumulated control state of the sequential fallback inside tap: the
success flag, the single lastError variable, and the list of strategy
numbers that were attempted, in order. -/
structure TapTrace where
  success : Bool
  lastError : Option String
  attempted : List Nat
deriving Repr, DecidableEq

/-- One step of the sequential fallback in tap: strategy number i runs only
while success is still false, and on failure it overwrites lastError. -/
def runTapStep (t : TapTrace) (r : StepResult) (i : Nat) : TapTrace :=
  if t.success then t
  else
    match r with
    | .ok => { t with success := true, attempted := t.attempted ++ [i] }
    | .fail e => { t with lastError := some e, attempted := t.attempted ++ [i] }

/-- Fallback cascade of WDAClient.tap (wda-client.js lines 163-328). -/
def tapTrace (env : TapEnv) (device : String) : TapTrace :=
  let t0 : TapTrace := ⟨false, none, []⟩
  let t1 := runTapStep t0 (tryWDATap env device) 1
  let t2 := runTapStep t1 (tryUiTap env) 2
  let t3 := runTapStep t2 (tryOsaScaled env) 3
  runTapStep t3 (tryOsaDebug env) 4

/-- Structured form of the error strings thrown by tap and its callers:
raw s is the plain message s, and wrapped x y e is the message
{Failed to tap at (x, y): m} where m is the message of e.  The repeated
rethrow pattern in wda-client.js wraps the same coordinates several times. -/
inductive TapErr where
  | raw (s : String)
  | wrapped (x : ℚ) (y : ℚ) (inner : TapErr)
deriving Repr, DecidableEq

/-- List of the raw strategy error messages embedded in a thrown tap error. -/
def TapErr.rawLeaves : TapErr → List String
  | .raw s => [s]
  | .wrapped _ _ e => e.rawLeaves

/-- Success value returned by WDAClient.tap (wda-client.js line 332). -/
structure TapOk where
  x : ℚ
  y : ℚ
  device : String
deriving Repr, DecidableEq

/-- Strategy phase of WDAClient.tap (wda-client.js lines 158-347), run with a
connected device: if some strategy succeeded the tap resolves with the
coordinates and device; otherwise the all-failed error built from lastError
is thrown and rethrown through the two enclosing catch clauses, each of
which prepends the same coordinate prefix. -/
def tapResult (env : TapEnv) (device : String) (x y : ℚ) : Except TapErr TapOk :=
  let t := tapTrace env device
  if t.success then .ok ⟨x, y, device⟩
  else
    .error (.wrapped x y (.wrapped x y (.wrapped x y
      (.raw (t.lastError.getD "All methods failed")))))

/-- Result and side effects of one WDAClient.tap call. -/
structure TapEffect where
  result : Except TapErr TapOk
  boots : List String
  state : WDAState
deriving Repr, DecidableEq

/-- WDAClient.tap entry (wda-client.js lines 150-348): when the client is not
connected or has a falsy device, it first runs connectToDevice; a connection
failure is rethrown with one coordinate wrap by the outermost catch, and
otherwise the strategy phase runs against the resolved device. -/
def wdaTap (st : WDAState) (listing relisting : List Device) (env : TapEnv)
    (x y : ℚ) : TapEffect :=
  if !st.isConnected || jsFalsyStr st.currentDevice then
    let c := connectToDevice st listing relisting none
    match c.result with
    | .error e => ⟨.error (.wrapped x y (.raw e)), c.boots, c.state⟩
    | .ok _ => ⟨tapResult env (c.state.currentDevice.getD "") x y, c.boots, c.state⟩
  else
    ⟨tapResult env (st.currentDevice.getD "") x y, [], st⟩

/-- Reply emitted by the server tap handler as an input-result message. -/
inductive TapReply where
  | ok (r : TapOk)
  | invalidCoordinates
  | failed (e : TapErr)
deriving Repr, DecidableEq

/-- Result and side effects of one inbound tap message. -/
structure ServerTapEffect where
  reply : TapReply
  boots : List String
  state : WDAState
deriving Repr, DecidableEq

/-- Tap handler of server.js (lines 107-124): a falsy x or y coordinate is
rejected as {Invalid tap coordinates} before WDAClient.tap is invoked; any
error thrown below is reported as a failed input-result. -/
def serverTap (st : WDAState) (listing relisting : List Device) (env : TapEnv)
    (x y : ℚ) : ServerTapEffect :=
  if jsFalsyNum x || jsFalsyNum y then ⟨.invalidCoordinates, [], st⟩
  else
    let t := wdaTap st listing relisting env x y
    match t.result with
    | .ok r => ⟨.ok r, t.boots, t.state⟩
    | .error e => ⟨.failed e, t.boots, t.state⟩

/-- Outcomes of the external commands that the swipe strategy chain invokes
(wda-client.js lines 363-480): the devicectl listing, the devicectl
send-input swipe, the osascript click pair, and the osascript drag used as
the ultimate fallback. -/
structure SwipeEnv where
  devicectlList : Except String String
  sendInputSwipe : Except String Unit
  osaClicks : Except String Unit
  osaDrag : Except String Unit
deriving Repr, DecidableEq

/-- Swipe strategy 1 (wda-client.js lines 374-398): list devices with
devicectl; if the output contains the current device id, send a swipe event,
otherwise throw that WDA is unavailable. -/
def tryWDASwipe (env : SwipeEnv) (device : String) : StepResult :=
  match env.devicectlList with
  | .error e => .fail e
  | .ok out =>
    if device.toList <:+: out.toList then
      match env.sendInputSwipe with
      | .ok _ => .ok
      | .error e => .fail e
    else .fail "WDA not available for this device"

/-- Swipe strategy 2 (wda-client.js lines 400-419): osascript clicking the
start and end points. -/
def tryOsaClicks (env : SwipeEnv) : StepResult :=
  match env.osaClicks with
  | .ok _ => .ok
  | .error e => .fail e

/-- Structured form of the error strings thrown by swipe: raw s is the plain
message s, and wrapped sx sy ex ey e is the message
{Failed to swipe from (sx, sy) to (ex, ey): m} where m is the message of e. -/
inductive SwipeErr where
  | raw (s : String)
  | wrapped (sx : ℚ) (sy : ℚ) (ex : ℚ) (ey : ℚ) (inner : SwipeErr)
deriving Repr, DecidableEq

/-- Success value returned by WDAClient.swipe (lines 430-438 and 466-474). -/
structure SwipeOk where
  startX : ℚ
  startY : ℚ
  endX : ℚ
  endY : ℚ
  duration : ℚ
  device : String
deriving Repr, DecidableEq

/-- Success flag and lastError after the two in-line swipe strategies. -/
structure SwipeTrace where
  success : Bool
  lastError : Option String
deriving Repr, DecidableEq

/-- Sequential strategy phase of WDAClient.swipe (lines 370-419): strategy 2
runs only when strategy 1 failed. -/
def swipeTrace (env : SwipeEnv) (device : String) : SwipeTrace :=
  match tryWDASwipe env device with
  | .ok => ⟨true, none⟩
  | .fail e₁ =>
    match tryOsaClicks env with
    | .ok => ⟨true, some e₁⟩
    | .fail e₂ => ⟨false, some e₂⟩

/-- Strategy and fallback phase of WDAClient.swipe (lines 366-481), run with
a connected device.  If both in-line strategies fail, the thrown aggregate is
caught and the osascript drag fallback runs; if the fallback also fails its
error is wrapped by the fallback catch and wrapped again by the outermost
catch when rethrown. -/
def swipeResult (env : SwipeEnv) (device : String) (sx sy ex ey dur : ℚ) :
    Except SwipeErr SwipeOk :=
  let t := swipeTrace env device
  if t.success then .ok ⟨sx, sy, ex, ey, dur, device⟩
  else
    match env.osaDrag with
    | .ok _ => .ok ⟨sx, sy, ex, ey, dur, device⟩
    | .error fb => .error (.wrapped sx sy ex ey (.wrapped sx sy ex ey (.raw fb)))

/-- Result and side effects of one WDAClient.swipe call. -/
structure SwipeEffect where
  result : Except SwipeErr SwipeOk
  boots : List String
  state : WDAState
deriving Repr, DecidableEq

/-- WDAClient.swipe entry (wda-client.js lines 353-488): same auto-connect
guard as tap; a connection failure is rethrown with one coordinate wrap by
the outermost catch. -/
def wdaSwipe (st : WDAState) (listing relisting : List Device) (env : SwipeEnv)
    (sx sy ex ey dur : ℚ) : SwipeEffect :=
  if !st.isConnected || jsFalsyStr st.currentDevice then
    let c := connectToDevice st listing relisting none
    match c.result with
    | .error e => ⟨.error (.wrapped sx sy ex ey (.raw e)), c.boots, c.state⟩
    | .ok _ => ⟨swipeResult env (c.state.currentDevice.getD "") sx sy ex ey dur, c.boots, c.state⟩
  else
    ⟨swipeResult env (st.currentDevice.getD "") sx sy ex ey dur, [], st⟩

/-- Reply emitted by the server swipe handler as an input-result message. -/
inductive SwipeReply where
  | ok (r : SwipeOk)
  | invalidCoordinates
  | failed (e : SwipeErr)
deriving Repr, DecidableEq

/-- Result and side effects of one inbound swipe message. -/
structure ServerSwipeEffect where
  reply : SwipeReply
  boots : List String
  state : WDAState
deriving Repr, DecidableEq

/-- Swipe handler of server.js (lines 126-149): a falsy coordinate among
startX, startY, endX, endY is rejected as {Invalid swipe coordinates} before
WDAClient.swipe is invoked; a falsy or absent duration defaults to 1000. -/
def serverSwipe (st : WDAState) (listing relisting : List Device)
    (env : SwipeEnv) (sx sy ex ey : ℚ) (duration? : Option ℚ) :
    ServerSwipeEffect :=
  if jsFalsyNum sx || jsFalsyNum sy || jsFalsyNum ex || jsFalsyNum ey then
    ⟨.invalidCoordinates, [], st⟩
  else
    let dur : ℚ :=
      match duration? with
      | some d => if jsFalsyNum d then 1000 else d
      | none => 1000
    let s := wdaSwipe st listing relisting env sx sy ex ey dur
    match s.result with
    | .ok r => ⟨.ok r, s.boots, s.state⟩
    | .error e => ⟨.failed e, s.boots, s.state⟩

/-- State of the FFmpegStream object (ffmpeg-stream.js constructor) together
with the JS runtime timer registry: timers is the list of armed interval
timer ids in the process, nextTimer the next fresh id. -/
structure FFmpegState where
  screenshotInterval : Option Nat
  ffmpegProcess : Option Nat
  isStreaming : Bool
  currentSocket : Option Nat
  simulatorId : Option String
  timers : List Nat
  nextTimer : Nat
deriving Repr, DecidableEq

/-- Effect of clearInterval on the timer registry, given the optional timer
reference held by the object. -/
def clearTimer (timers : List Nat) : Option Nat → List Nat
  | some t => timers.erase t
  | none => timers

/-- FFmpegStream.startScreenshotLoop (ffmpeg-stream.js lines 53-70): clear
any previously armed interval, then arm a fresh 100 ms interval. -/
def startScreenshotLoop (st : FFmpegState) : FFmpegState :=
  { st with
    timers := clearTimer st.timers st.screenshotInterval ++ [st.nextTimer],
    screenshotInterval := some st.nextTimer,
    nextTimer := st.nextTimer + 1 }

/-- FFmpegStream.stopStream (ffmpeg-stream.js lines 153-175): clear the
interval, kill any ffmpeg process, reset the flags and references. -/
def ffmpegStopStream (st : FFmpegState) : FFmpegState :=
  { st with
    timers := clearTimer st.timers st.screenshotInterval,
    screenshotInterval := none,
    ffmpegProcess := none,
    isStreaming := false,
    currentSocket := none,
    simulatorId := none }

/-- FFmpegStream.startStream (ffmpeg-stream.js lines 27-48): stop first when
already streaming, record the socket and simulator id, start the screenshot
loop, then set the running flag. -/
def ffmpegStartStream (st : FFmpegState) (socket : Nat)
    (simulatorId : Option String) : FFmpegState :=
  let st1 := if st.isStreaming then ffmpegStopStream st else st
  let st2 := { st1 with currentSocket := some socket, simulatorId := simulatorId }
  let st3 := startScreenshotLoop st2
  { st3 with isStreaming := true }

/-- State of the WebRTCStream object (webrtc-stream.js constructor), with
the same explicit timer registry; peers holds the socket ids that own a live
peer connection. -/
structure WebRTCState where
  peers : List Nat
  isStreaming : Bool
  simulatorId : Option String
  screenshotMode : Bool
  screenshotInterval : Option Nat
  timers : List Nat
  nextTimer : Nat
deriving Repr, DecidableEq

/-- WebRTCStream.startScreenshotLoop (webrtc-stream.js lines 44-59). -/
def webrtcScreenshotLoop (st : WebRTCState) : WebRTCState :=
  { st with
    timers := clearTimer st.timers st.screenshotInterval ++ [st.nextTimer],
    screenshotInterval := some st.nextTimer,
    nextTimer := st.nextTimer + 1 }

/-- WebRTCStream.stopStream (webrtc-stream.js lines 154-181): clear the
screenshot interval, destroy every peer connection, reset the flags. -/
def webrtcStopStream (st : WebRTCState) : WebRTCState :=
  { st with
    timers := clearTimer st.timers st.screenshotInterval,
    screenshotInterval := none,
    peers := [],
    isStreaming := false,
    simulatorId := none }

/-- WebRTCStream.startStream (webrtc-stream.js lines 16-39): stop first when
already streaming, record the simulator id and running flag, then start the
screenshot loop or set up one peer connection, depending on screenshotMode. -/
def webrtcStartStream (st : WebRTCState) (socket : Nat)
    (simulatorId : Option String) : WebRTCState :=
  let st1 := if st.isStreaming then webrtcStopStream st else st
  let st2 := { st1 with simulatorId := simulatorId, isStreaming := true }
  if st2.screenshotMode then webrtcScreenshotLoop st2
  else { st2 with peers := st2.peers ++ [socket] }

/-- Combined server-side state: the single WDAClient and FFmpegStream
objects created at the top of server.js (lines 28-29). -/
structure ServerState where
  wda : WDAState
  stream : FFmpegState
deriving Repr, DecidableEq

/-- WDAClient.disconnect (wda-client.js lines 703-707): clear the connected
flag and the device reference, and nothing else. -/
def wdaDisconnect (st : WDAState) : WDAState :=
  { st with isConnected := false, currentDevice := none }

/-- stop-simulator handler of server.js (lines 72-82): the only call it
makes is WDAClient.disconnect. -/
def stopSimulator (s : ServerState) : ServerState :=
  { s with wda := wdaDisconnect s.wda }

/-- start-stream handler of server.js (lines 171-181): it invokes
FFmpegStream.startStream with the client socket and no simulator id, without
consulting the session state. -/
def serverStartStream (s : ServerState) (socket : Nat) : ServerState :=
  { s with stream := ffmpegStartStream s.stream socket none }

/-- Shell command string built by WDAClient.sendKeys (wda-client.js line
503): the literal template with the device id and the raw text spliced in,
with no escaping or validation. -/
def sendKeysCommand (device text : String) : String :=
  "xcrun simctl keyboard " ++ device ++ " type \"" ++ text ++ "\""

/-- Characters of the double-quoted argument as a shell delimits it:
everything after the first double quote of the command, up to the next
double quote. -/
def quotedArg (cmd : List Char) : List Char :=
  ((cmd.dropWhile (fun c => c ≠ '"')).drop 1).takeWhile (fun c => c ≠ '"')

/-- JS Math.round, rounding half up: the floor of q + 1/2. -/
def jsRound (q : ℚ) : ℤ := ⌊q + 1 / 2⌋

/-- Tap message built by the later frontend IOSRemoteApp.handlePointerDown
(webrtc-stream.js frontend section, lines 1282-1320): the pointer position
relative to the canvas element is validated against the canvas bounds and a
fixed 10000 limit, with a silent return (no message) on failure, and is then
emitted as Math.round of the raw canvas-relative coordinates; no
client-to-device scaling is applied. -/
def frontendTapMessage (canvasW canvasH x y : ℚ) : Option (ℤ × ℤ) :=
  if x < 0 ∨ x > canvasW ∨ y < 0 ∨ y > canvasH then none
  else if x < 0 ∨ y < 0 ∨ x > 10000 ∨ y > 10000 then none
  else some (jsRound x, jsRound y)

/-- Tap message built by the earlier frontend IOSRemoteApp.handlePointerDown
(webrtc-stream.js frontend section, lines 448-460): the raw canvas-relative
pointer coordinates are emitted unchanged, with no validation and no
scaling. -/
def frontendTapMessageV1 (x y : ℚ) : ℚ × ℚ := (x, y)

/-- Coordinates delivered to the device for a pointer event handled by the
later frontend: the emitted message coordinates, rounded again by the
Math.round calls of the backend devicectl command (wda-client.js line 177);
none when the frontend dropped the event. -/
def deliveredFromPointer (canvasW canvasH x y : ℚ) : Option (ℤ × ℤ) :=
  match frontendTapMessage canvasW canvasH x y with
  | none => none
  | some (mx, my) => some (jsRound (mx : ℚ), jsRound (my : ℚ))

/-- Coordinates delivered to the device for a pointer event handled by the
earlier frontend: the raw emitted coordinates rounded by the backend
devicectl command. -/
def deliveredFromPointerV1 (x y : ℚ) : ℤ × ℤ :=
  (jsRound (frontendTapMessageV1 x y).1, jsRound (frontendTapMessageV1 x y).2)

/-- Rounding half up fixes every integer. -/
theorem jsRound_intCast (n : ℤ) : jsRound (n : ℚ) = n := by
  rw [jsRound, Int.floor_eq_iff]
  constructor <;> [push_cast; push_cast] <;> linarith

/-- C9: an inbound tap message with x = 0 or y = 0, and an inbound swipe
message with any of startX, startY, endX, endY equal to 0, is rejected by
the server handlers with the invalid-coordinates reply before anything is
dispatched to the device: no boot is issued, the client state is untouched,
and the result does not depend on the strategy environments. -/
theorem C9_zero_coordinates_rejected
    (st : WDAState) (listing relisting : List Device) (envT : TapEnv)
    (envS : SwipeEnv) (x y sx sy ex ey : ℚ) (dur : Option ℚ) :
    ((x = 0 ∨ y = 0) →
      serverTap st listing relisting envT x y = ⟨.invalidCoordinates, [], st⟩) ∧
    ((sx = 0 ∨ sy = 0 ∨ ex = 0 ∨ ey = 0) →
      serverSwipe st listing relisting envS sx sy ex ey dur =
        ⟨.invalidCoordinates, [], st⟩) := by
  constructor
  · intro h
    have hb : (jsFalsyNum x || jsFalsyNum y) = true := by
      rcases h with h | h <;> simp [jsFalsyNum, h]
    simp [serverTap, hb]
  · intro h
    have hb : (jsFalsyNum sx || jsFalsyNum sy || jsFalsyNum ex || jsFalsyNum ey) = true := by
      rcases h with h | h | h | h <;> simp [jsFalsyNum, h]
    simp [serverSwipe, hb]

/-- Witness for C9 at concrete inputs: a tap at (0, 5) and a swipe whose
startY is 0 are both rejected with no dispatch. -/
theorem C9_zero_coordinates_rejected_witness :
    (((0 : ℚ) = 0 ∨ (5 : ℚ) = 0) ∧
      ((10 : ℚ) = 0 ∨ (0 : ℚ) = 0 ∨ (20 : ℚ) = 0 ∨ (30 : ℚ) = 0)) ∧
    serverTap ⟨true, some "UD", []⟩ [] [] ⟨.ok "UD", .ok (), .ok (), .ok (), .ok ()⟩ 0 5 =
      ⟨.invalidCoordinates, [], ⟨true, some "UD", []⟩⟩ ∧
    serverSwipe ⟨true, some "UD", []⟩ [] [] ⟨.ok "UD", .ok (), .ok (), .ok ()⟩ 10 0 20 30 none =
      ⟨.invalidCoordinates, [], ⟨true, some "UD", []⟩⟩ :=
  ⟨⟨Or.inl rfl, Or.inr (Or.inl rfl)⟩,
    (C9_zero_coordinates_rejected ⟨true, some "UD", []⟩ [] []
      ⟨.ok "UD", .ok (), .ok (), .ok (), .ok ()⟩ ⟨.ok "UD", .ok (), .ok (), .ok ()⟩
      0 5 10 0 20 30 none).1 (Or.inl rfl),
    (C9_zero_coordinates_rejected ⟨true, some "UD", []⟩ [] []
      ⟨.ok "UD", .ok (), .ok (), .ok (), .ok ()⟩ ⟨.ok "UD", .ok (), .ok (), .ok ()⟩
      0 5 10 0 20 30 none).2 (Or.inr (Or.inl rfl))⟩

/-- Counterexample to C4: from a connected state with a running stream
session (armed polling timer 0, running flag set), the stop-simulator path,
which is the disconnect of the session, clears the device reference and
connection flag but leaves the StreamSession entirely intact: the running
flag, the armed polling timer and the stream state all survive. -/
theorem C4_counterexample :
    (stopSimulator ⟨⟨true, some "UD", []⟩,
        ⟨some 0, none, true, some 1, some "UD", [0], 1⟩⟩).wda.isConnected = false ∧
    (stopSimulator ⟨⟨true, some "UD", []⟩,
        ⟨some 0, none, true, some 1, some "UD", [0], 1⟩⟩).wda.currentDevice = none ∧
    (stopSimulator ⟨⟨true, some "UD", []⟩,
        ⟨some 0, none, true, some 1, some "UD", [0], 1⟩⟩).stream.isStreaming = true ∧
    (stopSimulator ⟨⟨true, some "UD", []⟩,
        ⟨some 0, none, true, some 1, some "UD", [0], 1⟩⟩).stream.screenshotInterval = some 0 ∧
    (stopSimulator ⟨⟨true, some "UD", []⟩,
        ⟨some 0, none, true, some 1, some "UD", [0], 1⟩⟩).stream.timers = [0] := by
  decide

/-- C4 as amended: the stop-simulator disconnect clears the device reference
and the connected flag, returning the session to its idle shape, but it does
not stop an active StreamSession: the whole stream state, including any armed
polling timer, passes through unchanged. -/
theorem C4_disconnect_leaves_stream_running (s : ServerState) :
    (stopSimulator s).wda.isConnected = false ∧
    (stopSimulator s).wda.currentDevice = none ∧
    (stopSimulator s).wda.devices = s.wda.devices ∧
    (stopSimulator s).stream = s.stream := by
  refine ⟨rfl, rfl, rfl, rfl⟩

/-- Counterexample to C5: with nothing connected (idle WDA state) the
start-stream handler still creates a StreamSession: it arms polling timer 0,
sets the running flag, and reports no NotConnected failure, because the
handler has no connection check and cannot fail. -/
theorem C5_counterexample :
    (serverStartStream ⟨⟨false, none, []⟩,
        ⟨none, none, false, none, none, [], 0⟩⟩ 7).wda.isConnected = false ∧
    (serverStartStream ⟨⟨false, none, []⟩,
        ⟨none, none, false, none, none, [], 0⟩⟩ 7).stream.isStreaming = true ∧
    (serverStartStream ⟨⟨false, none, []⟩,
        ⟨none, none, false, none, none, [], 0⟩⟩ 7).stream.screenshotInterval = some 0 ∧
    (serverStartStream ⟨⟨false, none, []⟩,
        ⟨none, none, false, none, none, [], 0⟩⟩ 7).stream.timers = [0] := by
  decide

/-- C5 as amended: the start-stream request never consults the session state
and never fails with NotConnected; for every server state it arms a fresh
polling interval, marks the stream running, and leaves the WDA session state
untouched. -/
theorem C5_start_stream_ignores_session (s : ServerState) (socket : Nat) :
    (serverStartStream s socket).stream.isStreaming = true ∧
    (serverStartStream s socket).stream.screenshotInterval = some s.stream.nextTimer ∧
    (serverStartStream s socket).wda = s.wda := by
  cases hs : s.stream.isStreaming <;>
    simp [serverStartStream, ffmpegStartStream, ffmpegStopStream,
      startScreenshotLoop, hs]

/-- C1 at the failing input: a tap at (-5, 10), which lies outside the
claimed rectangle of a 300 by 600 client surface because -5 < 0, passes the
server validation (which only rejects falsy coordinates), reaches the
strategy chain, has strategy 1 attempted, and is delivered to the device at
the raw coordinates (-5, 10): no OutOfBounds failure exists anywhere on the
path and nothing is clamped. -/
theorem C1_tap_out_of_bounds_dispatched :
    ((-5 : ℚ) < 0) ∧
    serverTap ⟨true, some "UD", []⟩ [] [] ⟨.ok "UD", .ok (), .ok (), .ok (), .ok ()⟩ (-5) 10 =
      ⟨.ok ⟨-5, 10, "UD"⟩, [], ⟨true, some "UD", []⟩⟩ ∧
    (tapTrace ⟨.ok "UD", .ok (), .ok (), .ok (), .ok ()⟩ "UD").attempted = [1] := by
  refine ⟨by norm_num, ?_, by decide⟩
  decide

/-- Counterexample to C6: for the in-bounds pointer coordinate (10, 10) on a
300 by 600 canvas, against a device whose logical resolution is 393 by 852,
the claimed linear map gives deviceX = 10 * 393 / 300 = 131/10, but the
pipeline delivers the unscaled coordinate 10: the frontend emits the raw
rounded canvas coordinate and the backend rounds it again, so no
device-surface scaling happens anywhere. -/
theorem C6_counterexample :
    ((0 : ℚ) ≤ 10 ∧ (10 : ℚ) ≤ 300 ∧ (10 : ℚ) ≤ 600) ∧
    deliveredFromPointer 300 600 10 10 = some (10, 10) ∧
    deliveredFromPointerV1 10 10 = (10, 10) ∧
    ((10 : ℚ) ≠ 10 * 393 / 300) := by
  refine ⟨by norm_num, ?_, ?_, by norm_num⟩ <;>
    norm_num [deliveredFromPointer, deliveredFromPointerV1, frontendTapMessage,
      frontendTapMessageV1, jsRound]

/-- C6 as amended: the pipeline performs no client-to-device scaling at all.
For every pointer coordinate inside the canvas (and under the frontend's
10000 limit), the coordinate delivered to the device is Math.round of the
raw canvas-relative coordinate, in both frontend versions; it depends on no
device surface, so it matches the claimed linear map only when the device
and client surfaces coincide. -/
theorem C6_delivered_is_rounded_raw (canvasW canvasH x y : ℚ)
    (hx0 : 0 ≤ x) (hxw : x ≤ canvasW) (hy0 : 0 ≤ y) (hyh : y ≤ canvasH)
    (hxm : x ≤ 10000) (hym : y ≤ 10000) :
    deliveredFromPointer canvasW canvasH x y = some (jsRound x, jsRound y) ∧
    deliveredFromPointerV1 x y = (jsRound x, jsRound y) := by
  have h1 : ¬(x < 0 ∨ x > canvasW ∨ y < 0 ∨ y > canvasH) := by
    push_neg
    exact ⟨hx0, hxw, hy0, hyh⟩
  have h2 : ¬(x < 0 ∨ y < 0 ∨ x > 10000 ∨ y > 10000) := by
    push_neg
    exact ⟨hx0, hy0, hxm, hym⟩
  have hm : frontendTapMessage canvasW canvasH x y = some (jsRound x, jsRound y) := by
    rw [frontendTapMessage, if_neg h1, if_neg h2]
  refine ⟨?_, rfl⟩
  rw [deliveredFromPointer, hm]
  show some (jsRound ((jsRound x : ℤ) : ℚ), jsRound ((jsRound y : ℤ) : ℚ)) =
    some (jsRound x, jsRound y)
  rw [jsRound_intCast, jsRound_intCast]

/-- Witness for C6 at the concrete in-bounds pointer coordinate (10, 10) on
a 300 by 600 canvas: the delivered coordinate is the unscaled (10, 10). -/
theorem C6_delivered_is_rounded_raw_witness :
    ((0 : ℚ) ≤ 10 ∧ (10 : ℚ) ≤ 300 ∧ (0 : ℚ) ≤ 10 ∧ (10 : ℚ) ≤ 600 ∧
      (10 : ℚ) ≤ 10000 ∧ (10 : ℚ) ≤ 10000) ∧
    deliveredFromPointer 300 600 10 10 = some (jsRound 10, jsRound 10) ∧
    jsRound (10 : ℚ) = 10 :=
  ⟨by norm_num,
    (C6_delivered_is_rounded_raw 300 600 10 10 (by norm_num) (by norm_num)
      (by norm_num) (by norm_num) (by norm_num) (by norm_num)).1,
    by norm_num [jsRound]⟩

/-- Dropping while a predicate holds skips over a block that satisfies it. -/
theorem dropWhile_append_all {α : Type} (p : α → Bool) (xs ys : List α)
    (h : ∀ x ∈ xs, p x = true) :
    (xs ++ ys).dropWhile p = ys.dropWhile p := by
  induction xs with
  | nil => rfl
  | cons a l ih =>
    have ha : p a = true := h a (List.mem_cons_self a l)
    simp only [List.cons_append, List.dropWhile_cons, ha, if_true]
    exact ih fun x hx => h x (List.mem_cons_of_mem a hx)

/-- Taking while a predicate holds stops no later than a failing element. -/
theorem takeWhile_append_false {α : Type} (p : α → Bool) (xs ys : List α)
    (a : α) (ha : p a = false) :
    (xs ++ a :: ys).takeWhile p = xs.takeWhile p := by
  induction xs with
  | nil => simp [List.takeWhile_cons, ha]
  | cons b l ih =>
    simp only [List.cons_append, List.takeWhile_cons]
    cases hb : p b <;> simp [ih]

/-- Taking while a predicate holds, across a list holding a failing element,
yields a list strictly shorter than the whole. -/
theorem takeWhile_length_lt_of_mem {α : Type} (p : α → Bool) (xs : List α)
    (a : α) (hmem : a ∈ xs) (ha : p a = false) :
    (xs.takeWhile p).length < xs.length := by
  induction xs with
  | nil => cases hmem
  | cons b l ih =>
    simp only [List.takeWhile_cons]
    cases hb : p b with
    | false => simp
    | true =>
      rcases List.mem_cons.mp hmem with rfl | hmem'
      · rw [hb] at ha; cases ha
      · simpa using ih hmem'

/-- Splitting the quoted argument out of a command whose head contains no
double quote. -/
theorem quotedArg_split (A rest : List Char) (hA : ∀ c ∈ A, c ≠ '"') :
    quotedArg (A ++ '"' :: rest) = rest.takeWhile (fun c => c ≠ '"') := by
  unfold quotedArg
  rw [dropWhile_append_all _ A ('"' :: rest) (fun c hc => by simp [hA c hc])]
  simp [List.dropWhile_cons]

/-- C10: sendKeys builds the backend command as the literal concatenation of
the template, the device id and the raw text, with no escaping; for a device
id free of double quotes and a text containing one, the double-quoted
argument of the constructed command ends at the first quote inside the text,
strictly before the full text. -/
theorem C10_sendkeys_quote_truncation (device text : String)
    (hdev : ∀ c ∈ device.toList, c ≠ '"')
    (htext : '"' ∈ text.toList) :
    sendKeysCommand device text =
      "xcrun simctl keyboard " ++ device ++ " type \"" ++ text ++ "\"" ∧
    quotedArg (sendKeysCommand device text).toList =
      text.toList.takeWhile (fun c => c ≠ '"') ∧
    (quotedArg (sendKeysCommand device text).toList).length < text.toList.length := by
  have hsplit : (sendKeysCommand device text).toList =
      ("xcrun simctl keyboard ".toList ++ device.toList ++ " type ".toList) ++
        '"' :: (text.toList ++ ['"']) := by
    simp [sendKeysCommand, String.toList]
  have hA : ∀ c ∈ ("xcrun simctl keyboard ".toList ++ device.toList ++
      " type ".toList), c ≠ '"' := by
    intro c hc
    have hPall : ∀ x ∈ "xcrun simctl keyboard ".toList, x ≠ '"' := by decide
    have hTall : ∀ x ∈ " type ".toList, x ≠ '"' := by decide
    rcases List.mem_append.mp hc with h1 | hT
    · rcases List.mem_append.mp h1 with hP | hdevm
      · exact hPall c hP
      · exact hdev c hdevm
    · exact hTall c hT
  have harg : quotedArg (sendKeysCommand device text).toList =
      text.toList.takeWhile (fun c => c ≠ '"') := by
    rw [hsplit, quotedArg_split _ _ hA,
      takeWhile_append_false _ text.toList [] '"' (by simp)]
  refine ⟨rfl, harg, ?_⟩
  rw [harg]
  exact takeWhile_length_lt_of_mem _ _ '"' htext (by simp)

/-- Witness for C10: for device ABC and the text hi"there the quoted
argument of the built command is just hi, shorter than the text. -/
theorem C10_sendkeys_quote_truncation_witness :
    ((∀ c ∈ "ABC".toList, c ≠ '"') ∧ '"' ∈ "hi\"there".toList) ∧
    sendKeysCommand "ABC" "hi\"there" =
      "xcrun simctl keyboard " ++ "ABC" ++ " type \"" ++ "hi\"there" ++ "\"" ∧
    quotedArg (sendKeysCommand "ABC" "hi\"there").toList =
      "hi\"there".toList.takeWhile (fun c => c ≠ '"') ∧
    (quotedArg (sendKeysCommand "ABC" "hi\"there").toList).length <
      "hi\"there".toList.length :=
  ⟨⟨by decide, by decide⟩,
    C10_sendkeys_quote_truncation "ABC" "hi\"there" (by decide) (by decide)⟩

/-- Counterexample to C2: from a state that is not connected, a tap does not
fail with NotConnected; the client auto-connects to the booted simulator in
the listing and then executes the strategy chain against it, delivering the
tap: strategy 1 is attempted and succeeds. -/
theorem C2_counterexample :
    (⟨false, none, []⟩ : WDAState).isConnected = false ∧
    wdaTap ⟨false, none, []⟩ [⟨"UD", "iPhone 15", "Simulator", "Booted", "iOS 17"⟩]
        [⟨"UD", "iPhone 15", "Simulator", "Booted", "iOS 17"⟩]
        ⟨.ok "UD", .ok (), .ok (), .ok (), .ok ()⟩ 10 20 =
      ⟨.ok ⟨10, 20, "UD"⟩, [],
        ⟨true, some "UD", [⟨"UD", "iPhone 15", "Simulator", "Booted", "iOS 17"⟩]⟩⟩ ∧
    (tapTrace ⟨.ok "UD", .ok (), .ok (), .ok (), .ok ()⟩ "UD").attempted = [1] := by
  decide

/-- C2 as amended: when the session is not connected (or the device
reference is falsy), tap and swipe do not fail with a NotConnected error;
both first run connectToDevice, fail only when that auto-connect fails
(carrying the wrapped connect error), and otherwise execute their strategy
chains against the freshly connected device. -/
theorem C2_not_connected_auto_connects
    (st : WDAState) (listing relisting : List Device) (envT : TapEnv)
    (envS : SwipeEnv) (x y sx sy ex ey dur : ℚ)
    (h : st.isConnected = false ∨ jsFalsyStr st.currentDevice = true) :
    (∀ e, (connectToDevice st listing relisting none).result = .error e →
      wdaTap st listing relisting envT x y =
        ⟨.error (.wrapped x y (.raw e)),
          (connectToDevice st listing relisting none).boots,
          (connectToDevice st listing relisting none).state⟩ ∧
      wdaSwipe st listing relisting envS sx sy ex ey dur =
        ⟨.error (.wrapped sx sy ex ey (.raw e)),
          (connectToDevice st listing relisting none).boots,
          (connectToDevice st listing relisting none).state⟩) ∧
    (∀ devId, (connectToDevice st listing relisting none).result = .ok devId →
      (wdaTap st listing relisting envT x y).result =
        tapResult envT
          ((connectToDevice st listing relisting none).state.currentDevice.getD "") x y ∧
      (wdaSwipe st listing relisting envS sx sy ex ey dur).result =
        swipeResult envS
          ((connectToDevice st listing relisting none).state.currentDevice.getD "")
          sx sy ex ey dur) := by
  have hg : (!st.isConnected || jsFalsyStr st.currentDevice) = true := by
    rcases h with h | h <;> simp [h]
  constructor
  · intro e he
    constructor <;> simp [wdaTap, wdaSwipe, hg, he]
  · intro devId hid
    constructor <;> simp [wdaTap, wdaSwipe, hg, hid]

/-- Witness for C2 at concrete inputs: from the disconnected initial state,
with a booted simulator in the listing, both tap and swipe auto-connect and
run their strategy chains against the selected device. -/
theorem C2_not_connected_auto_connects_witness :
    ((⟨false, none, []⟩ : WDAState).isConnected = false ∨
      jsFalsyStr (⟨false, none, []⟩ : WDAState).currentDevice = true) ∧
    (wdaTap ⟨false, none, []⟩ [⟨"UD", "iPhone 15", "Simulator", "Booted", "iOS 17"⟩]
        [⟨"UD", "iPhone 15", "Simulator", "Booted", "iOS 17"⟩]
        ⟨.ok "UD", .ok (), .ok (), .ok (), .ok ()⟩ 10 20).result =
      tapResult ⟨.ok "UD", .ok (), .ok (), .ok (), .ok ()⟩
        ((connectToDevice ⟨false, none, []⟩
            [⟨"UD", "iPhone 15", "Simulator", "Booted", "iOS 17"⟩]
            [⟨"UD", "iPhone 15", "Simulator", "Booted", "iOS 17"⟩]
            none).state.currentDevice.getD "") 10 20 ∧
    (wdaSwipe ⟨false, none, []⟩ [⟨"UD", "iPhone 15", "Simulator", "Booted", "iOS 17"⟩]
        [⟨"UD", "iPhone 15", "Simulator", "Booted", "iOS 17"⟩]
        ⟨.ok "UD", .ok (), .ok (), .ok ()⟩ 1 2 3 4 5).result =
      swipeResult ⟨.ok "UD", .ok (), .ok (), .ok ()⟩
        ((connectToDevice ⟨false, none, []⟩
            [⟨"UD", "iPhone 15", "Simulator", "Booted", "iOS 17"⟩]
            [⟨"UD", "iPhone 15", "Simulator", "Booted", "iOS 17"⟩]
            none).state.currentDevice.getD "") 1 2 3 4 5 :=
  ⟨Or.inl rfl,
    (C2_not_connected_auto_connects ⟨false, none, []⟩
      [⟨"UD", "iPhone 15", "Simulator", "Booted", "iOS 17"⟩]
      [⟨"UD", "iPhone 15", "Simulator", "Booted", "iOS 17"⟩]
      ⟨.ok "UD", .ok (), .ok (), .ok (), .ok ()⟩
      ⟨.ok "UD", .ok (), .ok (), .ok ()⟩ 10 20 1 2 3 4 5
      (Or.inl rfl)).2 "UD" (by decide)⟩

/-- Counterexample to C3: when all four tap strategies fail with the
messages e1, e2, e3, e4, the aggregate error thrown by tap embeds only the
last message e4; the list of strategy messages it carries has length 1, not
the strategy count 4, and the intermediate error e1 is dropped. -/
theorem C3_counterexample :
    tapResult ⟨.error "e1", .ok (), .error "e2", .error "e3", .error "e4"⟩ "UD" 10 20 =
      .error (.wrapped 10 20 (.wrapped 10 20 (.wrapped 10 20 (.raw "e4")))) ∧
    (tapStrategyResults ⟨.error "e1", .ok (), .error "e2", .error "e3", .error "e4"⟩
        "UD").length = 4 ∧
    TapErr.rawLeaves (.wrapped 10 20 (.wrapped 10 20 (.wrapped 10 20 (.raw "e4")))) =
      ["e4"] ∧
    "e1" ∉ TapErr.rawLeaves (.wrapped 10 20 (.wrapped 10 20 (.wrapped 10 20 (.raw "e4")))) ∧
    (TapErr.rawLeaves (.wrapped 10 20 (.wrapped 10 20 (.wrapped 10 20
        (.raw "e4"))))).length ≠ 4 := by
  decide

/-- C3 as amended: the aggregate tap error is raised exactly when every one
of the four configured strategies fails, but it carries only the single
message recorded in lastError, which is the message of the last failing
strategy, not the ordered list of all per-strategy messages. -/
theorem C3_all_fail_last_error_only (env : TapEnv) (device : String) (x y : ℚ) :
    ((∃ e, tapResult env device x y = .error e) ↔
      ∀ r ∈ tapStrategyResults env device, r.isOk = false) ∧
    (∀ e, tapResult env device x y = .error e →
      e.rawLeaves = [(tapTrace env device).lastError.getD "All methods failed"]) ∧
    (∀ m, tryOsaDebug env = .fail m → (tapTrace env device).success = false →
      (tapTrace env device).lastError = some m) := by
  rcases h1 : tryWDATap env device with _ | e1 <;>
    rcases h2 : tryUiTap env with _ | e2 <;>
      rcases h3 : tryOsaScaled env with _ | e3 <;>
        rcases h4 : tryOsaDebug env with _ | e4 <;>
          simp [tapResult, tapTrace, runTapStep, tapStrategyResults, h1, h2, h3, h4,
            StepResult.isOk, TapErr.rawLeaves]

/-- Witness for C3 at a concrete environment where all four strategies fail:
the aggregate error raised carries exactly the single lastError message. -/
theorem C3_all_fail_last_error_only_witness :
    tapResult ⟨.error "e1", .ok (), .error "e2", .error "e3", .error "e4"⟩ "UD" 10 20 =
      .error (.wrapped 10 20 (.wrapped 10 20 (.wrapped 10 20 (.raw "e4")))) ∧
    TapErr.rawLeaves (.wrapped 10 20 (.wrapped 10 20 (.wrapped 10 20 (.raw "e4")))) =
      [(tapTrace ⟨.error "e1", .ok (), .error "e2", .error "e3", .error "e4"⟩
          "UD").lastError.getD "All methods failed"] :=
  ⟨by decide,
    (C3_all_fail_last_error_only
      ⟨.error "e1", .ok (), .error "e2", .error "e3", .error "e4"⟩ "UD" 10 20).2.1
      (.wrapped 10 20 (.wrapped 10 20 (.wrapped 10 20 (.raw "e4")))) (by decide)⟩

/-- C7: when the device listing contains a booted simulator (as it does
whenever the client is already connected to a booted device) and device ids
are unique, connectToDevice with no device id issues no boot command and
returns success, selecting a booted device: re-entrant connect calls are
idempotent in this sense and never re-boot. -/
theorem C7_connect_selects_booted_without_boot (st : WDAState)
    (devices : List Device)
    (hnodup : (devices.map Device.id).Nodup)
    (hbooted : ∃ d ∈ devices, d.type = "Simulator" ∧ d.status = "Booted") :
    (connectToDevice st devices devices none).boots = [] ∧
    ∃ devId, (connectToDevice st devices devices none).result = .ok devId ∧
      (connectToDevice st devices devices none).state.isConnected = true ∧
      (connectToDevice st devices devices none).state.currentDevice = some devId := by
  obtain ⟨d, hd, ht, hs⟩ := hbooted
  have hfind : (devices.find?
      (fun d => d.type == "Simulator" && d.status == "Booted")).isSome := by
    rw [List.find?_isSome]
    exact ⟨d, hd, by simp [ht, hs]⟩
  obtain ⟨sim, hsim⟩ := Option.isSome_iff_exists.mp hfind
  have hsimM : sim ∈ devices := List.mem_of_find?_eq_some hsim
  have hsimStatus : sim.status = "Booted" := by
    have hp := List.find?_some hsim
    simp only [Bool.and_eq_true, beq_iff_eq] at hp
    exact hp.2
  have hver : (devices.find? (fun d2 => d2.id == sim.id)).isSome := by
    rw [List.find?_isSome]
    exact ⟨sim, hsimM, by simp⟩
  obtain ⟨e, he⟩ := Option.isSome_iff_exists.mp hver
  have heid : e.id = sim.id := by
    have hp := List.find?_some he
    simpa using hp
  have heM : e ∈ devices := List.mem_of_find?_eq_some he
  have hee : e = sim := List.inj_on_of_nodup_map hnodup heM hsimM heid
  rw [hee] at he
  refine ⟨?_, sim.id, ?_, ?_, ?_⟩ <;>
    simp [connectToDevice, jsFalsyStr, hsim, he, hsimStatus]

/-- Witness for C7: with a single booted simulator in the listing, the
connect call boots nothing and succeeds. -/
theorem C7_connect_selects_booted_without_boot_witness :
    ((([⟨"UD", "iPhone 15", "Simulator", "Booted", "iOS 17"⟩] :
        List Device).map Device.id).Nodup ∧
      ∃ d ∈ ([⟨"UD", "iPhone 15", "Simulator", "Booted", "iOS 17"⟩] : List Device),
        d.type = "Simulator" ∧ d.status = "Booted") ∧
    (connectToDevice ⟨false, none, []⟩
        [⟨"UD", "iPhone 15", "Simulator", "Booted", "iOS 17"⟩]
        [⟨"UD", "iPhone 15", "Simulator", "Booted", "iOS 17"⟩] none).boots = [] ∧
    ∃ devId, (connectToDevice ⟨false, none, []⟩
        [⟨"UD", "iPhone 15", "Simulator", "Booted", "iOS 17"⟩]
        [⟨"UD", "iPhone 15", "Simulator", "Booted", "iOS 17"⟩] none).result = .ok devId ∧
      (connectToDevice ⟨false, none, []⟩
        [⟨"UD", "iPhone 15", "Simulator", "Booted", "iOS 17"⟩]
        [⟨"UD", "iPhone 15", "Simulator", "Booted", "iOS 17"⟩] none).state.isConnected = true ∧
      (connectToDevice ⟨false, none, []⟩
        [⟨"UD", "iPhone 15", "Simulator", "Booted", "iOS 17"⟩]
        [⟨"UD", "iPhone 15", "Simulator", "Booted", "iOS 17"⟩] none).state.currentDevice =
          some devId :=
  ⟨⟨by decide, by decide⟩,
    C7_connect_selects_booted_without_boot ⟨false, none, []⟩
      [⟨"UD", "iPhone 15", "Simulator", "Booted", "iOS 17"⟩]
      (by decide) (by decide)⟩

/-- C8: starting a stream while one is already running first stops the
running one.  Under the reachable-state invariants (the only armed timer is
the current screenshot interval, a live ffmpeg process or peer or armed
interval implies the running flag, and armed timers predate the next fresh
id), both startStream implementations leave exactly one streaming backend
active when they resolve: the FFmpeg controller ends with precisely the
fresh polling timer armed and no ffmpeg process, the previously armed timer
is gone, and the WebRTC controller ends with precisely one mechanism, the
fresh timer in screenshot mode or the single peer connection in WebRTC
mode. -/
theorem C8_start_stream_single_backend
    (st : FFmpegState) (wst : WebRTCState) (sock : Nat) (sid : Option String)
    (h1 : st.timers = st.screenshotInterval.toList)
    (h2 : st.ffmpegProcess ≠ none → st.isStreaming = true)
    (h0 : ∀ t ∈ st.timers, t < st.nextTimer)
    (h3 : wst.timers = wst.screenshotInterval.toList)
    (h5 : wst.screenshotInterval ≠ none → wst.isStreaming = true)
    (h6 : wst.peers ≠ [] → wst.isStreaming = true) :
    (ffmpegStartStream st sock sid).isStreaming = true ∧
    (ffmpegStartStream st sock sid).screenshotInterval = some st.nextTimer ∧
    (ffmpegStartStream st sock sid).timers = [st.nextTimer] ∧
    (ffmpegStartStream st sock sid).ffmpegProcess = none ∧
    (∀ t, st.screenshotInterval = some t → t ∉ (ffmpegStartStream st sock sid).timers) ∧
    (webrtcStartStream wst sock sid).isStreaming = true ∧
    (wst.screenshotMode = true →
      (webrtcStartStream wst sock sid).timers = [wst.nextTimer] ∧
      (webrtcStartStream wst sock sid).peers = []) ∧
    (wst.screenshotMode = false →
      (webrtcStartStream wst sock sid).timers = [] ∧
      (webrtcStartStream wst sock sid).peers = [sock]) := by
  have hf : (ffmpegStartStream st sock sid).isStreaming = true ∧
      (ffmpegStartStream st sock sid).screenshotInterval = some st.nextTimer ∧
      (ffmpegStartStream st sock sid).timers = [st.nextTimer] ∧
      (ffmpegStartStream st sock sid).ffmpegProcess = none := by
    rcases hi : st.screenshotInterval with _ | t <;> rw [hi] at h1 <;>
      cases hs : st.isStreaming <;>
        simp_all [ffmpegStartStream, ffmpegStopStream, startScreenshotLoop, clearTimer]
  have hgone : ∀ t, st.screenshotInterval = some t →
      t ∉ (ffmpegStartStream st sock sid).timers := by
    intro t htv
    have htl : t ∈ st.timers := by rw [h1, htv]; simp
    have hlt := h0 t htl
    rw [hf.2.2.1]
    simp only [List.mem_singleton]
    omega
  have hw : (webrtcStartStream wst sock sid).isStreaming = true ∧
      (wst.screenshotMode = true →
        (webrtcStartStream wst sock sid).timers = [wst.nextTimer] ∧
        (webrtcStartStream wst sock sid).peers = []) ∧
      (wst.screenshotMode = false →
        (webrtcStartStream wst sock sid).timers = [] ∧
        (webrtcStartStream wst sock sid).peers = [sock]) := by
    rcases hi : wst.screenshotInterval with _ | t <;> rw [hi] at h3 <;>
      cases hs : wst.isStreaming <;> cases hm : wst.screenshotMode <;>
        simp_all [webrtcStartStream, webrtcStopStream, webrtcScreenshotLoop, clearTimer]
  exact ⟨hf.1, hf.2.1, hf.2.2.1, hf.2.2.2, hgone, hw.1, hw.2.1, hw.2.2⟩

/-- Witness for C8: concrete running stream states for both controllers;
after a restart, the FFmpeg controller has exactly the fresh timer 4 armed
and the WebRTC controller exactly the fresh timer 3. -/
theorem C8_start_stream_single_backend_witness :
    ((⟨some 3, some 9, true, some 1, some "UD", [3], 4⟩ : FFmpegState).timers =
        (⟨some 3, some 9, true, some 1, some "UD", [3], 4⟩ : FFmpegState).screenshotInterval.toList ∧
      ((⟨some 3, some 9, true, some 1, some "UD", [3], 4⟩ : FFmpegState).ffmpegProcess ≠ none →
        (⟨some 3, some 9, true, some 1, some "UD", [3], 4⟩ : FFmpegState).isStreaming = true) ∧
      (∀ t ∈ (⟨some 3, some 9, true, some 1, some "UD", [3], 4⟩ : FFmpegState).timers,
        t < (⟨some 3, some 9, true, some 1, some "UD", [3], 4⟩ : FFmpegState).nextTimer) ∧
      (⟨[5], true, some "UD", true, some 2, [2], 3⟩ : WebRTCState).timers =
        (⟨[5], true, some "UD", true, some 2, [2], 3⟩ : WebRTCState).screenshotInterval.toList ∧
      ((⟨[5], true, some "UD", true, some 2, [2], 3⟩ : WebRTCState).screenshotInterval ≠ none →
        (⟨[5], true, some "UD", true, some 2, [2], 3⟩ : WebRTCState).isStreaming = true) ∧
      ((⟨[5], true, some "UD", true, some 2, [2], 3⟩ : WebRTCState).peers ≠ [] →
        (⟨[5], true, some "UD", true, some 2, [2], 3⟩ : WebRTCState).isStreaming = true)) ∧
    (ffmpegStartStream ⟨some 3, some 9, true, some 1, some "UD", [3], 4⟩ 1 none).timers = [4] ∧
    (webrtcStartStream ⟨[5], true, some "UD", true, some 2, [2], 3⟩ 1 none).timers = [3] :=
  ⟨⟨by decide, by decide, by decide, by decide, by decide, by decide⟩,
    (C8_start_stream_single_backend ⟨some 3, some 9, true, some 1, some "UD", [3], 4⟩
      ⟨[5], true, some "UD", true, some 2, [2], 3⟩ 1 none
      (by decide) (by decide) (by decide) (by decide) (by decide) (by decide)).2.2.1,
    ((C8_start_stream_single_backend ⟨some 3, some 9, true, some 1, some "UD", [3], 4⟩
      ⟨[5], true, some "UD", true, some 2, [2], 3⟩ 1 none
      (by decide) (by decide) (by decide) (by decide) (by decide) (by decide)).2.2.2.2.2.2.1 rfl).1⟩
